import Mathlib

/-!
Shallow embedding of the message-relay core of `src/server.ts`:

* the in-memory socket registry `userSockets : Map<string, WebSocket>`,
* the per-connection WebSocket frame handler (`ws.on("message", ...)`,
  lines 125-147) and the close handler (`ws.on("close", ...)`, lines 149-151),
* the SQLite `messages` table (insertion-ordered list of rows, `id` is the
  primary key) and the history endpoint
  `GET /api/messages/:userId/:otherId` (lines 108-117).

Modelling conventions:

* A parsed JSON payload is a record of optional fields: a missing field is
  `none` (JS destructuring of an absent property yields `undefined`).
* `better-sqlite3` refuses to bind `undefined`: `stmt.run(...)` throws before
  touching the table if any bound value is `undefined`; it throws a
  constraint error (again without modifying the table) when the `id`
  primary key already exists.  Both exceptions land in the handler's
  `catch`, which only calls `console.error` (modelled by the `logged` flag).
* Registry keys are `Option String`: the auth branch runs
  `userSockets.set(currentUserId!, ws)` with `currentUserId = payload.userId`,
  which can be `undefined`, a legitimate `Map` key in JS.
* The close handler guard `if (currentUserId)` is JS truthiness: both
  `null`/`undefined` and the empty string skip the delete.
* The SQL `ORDER BY timestamp ASC` over a rowid table scanned in insertion
  order is modelled as a stable merge sort of the filtered rows.
-/

namespace Unsiming

/-- A live WebSocket connection handle.  `sid` distinguishes distinct
sockets; `readyState` mirrors `ws.readyState`. -/
structure Socket where
  sid : Nat
  readyState : Nat
deriving DecidableEq, Repr

/-- `WebSocket.OPEN` constant from the `ws` library. -/
def wsOPEN : Nat := 1

/-- A row of the `messages` table (`id` is the primary key). -/
structure Message where
  id : String
  senderId : String
  receiverId : String
  content : String
  timestamp : Int
  status : String
deriving DecidableEq, Repr

/-- The `userSockets` map, as an association list in insertion order.
Keys are `Option String` because `payload.userId` may be absent. -/
abbrev Registry := List (Option String × Socket)

/-- `Map.prototype.get`. -/
def regGet (reg : Registry) (k : Option String) : Option Socket :=
  (reg.find? (fun e => e.1 = k)).map (fun e => e.2)

/-- `Map.prototype.set`: overwrite in place when the key exists, append
otherwise. -/
def regSet (reg : Registry) (k : Option String) (v : Socket) : Registry :=
  if reg.any (fun e => e.1 = k) then
    reg.map (fun e => if e.1 = k then (k, v) else e)
  else
    reg ++ [(k, v)]

/-- `Map.prototype.delete`. -/
def regDelete (reg : Registry) (k : Option String) : Registry :=
  reg.filter (fun e => ¬ e.1 = k)

/-- A parsed inbound JSON payload; `ptype` is the source's `payload.type`
field, each field is `none` when absent from the JSON object. -/
structure Payload where
  ptype : Option String
  userId : Option String
  id : Option String
  senderId : Option String
  receiverId : Option String
  content : Option String
  timestamp : Option Int
deriving DecidableEq, Repr

/-- One inbound WebSocket frame: either text that `JSON.parse` rejects, or a
parsed payload. -/
inductive Frame where
  | malformed : Frame
  | parsed : Payload → Frame
deriving DecidableEq, Repr

/-- The outbound push frame built at line 141 of `src/server.ts`:
`JSON.stringify(\x7b type: 'message', senderId, receiverId, content, id, timestamp \x7d)`. -/
structure OutFrame where
  senderId : String
  receiverId : String
  content : String
  id : String
  timestamp : Int
deriving DecidableEq, Repr

/-- Observable outcome of one invocation of the frame handler: the new
table contents, the new registry, the connection's (possibly re-bound)
`currentUserId`, the outbound sends performed, and whether the `catch`
branch ran (`console.error`). -/
structure HandlerResult where
  messages : List Message
  userSockets : Registry
  currentUserId : Option String
  pushes : List (Socket × OutFrame)
  logged : Bool
deriving DecidableEq, Repr

/-- `true` when a row with primary key `i` is already present. -/
def containsId (msgs : List Message) (i : String) : Bool :=
  msgs.any (fun m => m.id = i)

/-- Number of stored rows whose `id` equals `i`. -/
def countId (msgs : List Message) (i : String) : Nat :=
  (msgs.filter (fun m => m.id = i)).length

/-- Lines 139-142 of `src/server.ts`: look the receiver up in `userSockets`
and, when the socket exists and is open, send the forwarded frame; the
result is the list of outbound sends performed (empty when the receiver is
offline or the socket is not open). -/
def livePush (reg : Registry) (r s c i : String) (t : Int) :
    List (Socket × OutFrame) :=
  match regGet reg (some r) with
  | some sock => if sock.readyState = wsOPEN then [(sock, ⟨s, r, c, i, t⟩)] else []
  | none => []

/-- Every row of the table carries status "sent". -/
def allSent (msgs : List Message) : Prop :=
  ∀ m ∈ msgs, m.status = "sent"

/-- The `ws.on("message", ...)` callback of `src/server.ts` lines 125-147,
for one frame arriving on a connection whose socket is `ws` and whose
`currentUserId` is `cur`.  The source's two `if` statements on
`payload.type` are mutually exclusive (the field is a single value), so
they are rendered as `if / else if`.  In the `message` branch the insert
runs first: binding any `undefined` field, or a duplicate primary key,
throws before the table is modified and before the receiver lookup; the
`catch` only logs. -/
def handleFrame (msgs : List Message) (reg : Registry) (cur : Option String)
    (ws : Socket) (f : Frame) : HandlerResult :=
  match f with
  | Frame.malformed => ⟨msgs, reg, cur, [], true⟩
  | Frame.parsed p =>
    if p.ptype = some "auth" then
      ⟨msgs, regSet reg p.userId ws, p.userId, [], false⟩
    else if p.ptype = some "message" then
      match p.id, p.senderId, p.receiverId, p.content, p.timestamp with
      | some i, some s, some r, some c, some t =>
        if containsId msgs i then
          ⟨msgs, reg, cur, [], true⟩
        else
          ⟨msgs ++ [⟨i, s, r, c, t, "sent"⟩], reg, cur, livePush reg r s c i t, false⟩
      | _, _, _, _, _ => ⟨msgs, reg, cur, [], true⟩
    else
      ⟨msgs, reg, cur, [], false⟩

/-- The `ws.on("close", ...)` callback of lines 149-151:
`if (currentUserId) userSockets.delete(currentUserId)`.  The guard is JS
truthiness, so the empty string also skips the delete. -/
def handleClose (reg : Registry) (cur : Option String) : Registry :=
  match cur with
  | some u => if u = "" then reg else regDelete reg (some u)
  | none => reg

/-- Predicate of the SQL `WHERE` clause of the history endpoint:
`(senderId = ? AND receiverId = ?) OR (senderId = ? AND receiverId = ?)`. -/
def pairMatch (userId otherId : String) (m : Message) : Bool :=
  (m.senderId = userId && m.receiverId = otherId) ||
    (m.senderId = otherId && m.receiverId = userId)

/-- Comparison used by `ORDER BY timestamp ASC`. -/
def tsLe (m1 m2 : Message) : Bool :=
  m1.timestamp ≤ m2.timestamp

/-- `GET /api/messages/:userId/:otherId` (lines 108-117): filter the table
(scanned in insertion order) by the conversation pair, then sort stably by
timestamp. -/
def historyQuery (msgs : List Message) (userId otherId : String) : List Message :=
  (msgs.filter (pairMatch userId otherId)).mergeSort tsLe

/-! ### Helper lemmas about the registry operations -/

theorem find?_map_overwrite (reg : Registry) (k : Option String) (v : Socket)
    (h : reg.any (fun e => e.1 = k) = true) :
    (reg.map (fun e => if e.1 = k then (k, v) else e)).find? (fun e => e.1 = k)
      = some (k, v) := by
  induction reg with
  | nil => simp at h
  | cons e es ih =>
    by_cases he : e.1 = k
    · simp [List.find?, he]
    · simp only [List.any_cons, Bool.or_eq_true, decide_eq_true_eq] at h
      rcases h with h | h

      · exact absurd h he
      · simp only [List.map_cons, List.find?, he, if_neg, not_false_iff, decide_eq_true_eq]
        simpa [he] using ih h

theorem find?_append_fresh (reg : Registry) (k : Option String) (v : Socket)
    (h : reg.any (fun e => e.1 = k) = false) :
    (reg ++ [(k, v)]).find? (fun e => e.1 = k) = some (k, v) := by
  have h1 : reg.find? (fun e => e.1 = k) = none := by
    rw [List.find?_eq_none]
    intro x hx
    simp only [List.any_eq_false] at h
    exact h x hx
  rw [List.find?_append, h1]
  simp [List.find?]

/-- After `userSockets.set(k, v)`, `userSockets.get(k)` returns `v`. -/
theorem regGet_regSet (reg : Registry) (k : Option String) (v : Socket) :
    regGet (regSet reg k v) k = some v := by
  unfold regGet regSet
  by_cases h : reg.any (fun e => e.1 = k)
  · rw [if_pos h, find?_map_overwrite reg k v h]
    rfl
  · rw [if_neg h, find?_append_fresh reg k v
      (by simp only [Bool.not_eq_true] at h; exact h)]
    rfl

/-- After `userSockets.delete(k)`, `userSockets.get(k)` returns nothing. -/
theorem regGet_regDelete (reg : Registry) (k : Option String) :
    regGet (regDelete reg k) k = none := by
  have h : (regDelete reg k).find? (fun e => e.1 = k) = none := by
    rw [List.find?_eq_none]
    intro x hx
    simp only [regDelete, List.mem_filter, decide_eq_true_eq] at hx
    simpa using hx.2
  simp [regGet, h]

/-! ### Branch lemmas for the frame handler -/

/-- An auth frame rebinds `currentUserId` and overwrites the registry entry. -/
theorem handleFrame_auth (msgs : List Message) (reg : Registry)
    (cur : Option String) (ws : Socket) (p : Payload)
    (hp : p.ptype = some "auth") :
    handleFrame msgs reg cur ws (Frame.parsed p)
      = ⟨msgs, regSet reg p.userId ws, p.userId, [], false⟩ := by
  unfold handleFrame
  dsimp only
  rw [if_pos hp]

/-- A frame of any type other than auth and message falls through both
branches: nothing happens and nothing is logged. -/
theorem handleFrame_other (msgs : List Message) (reg : Registry)
    (cur : Option String) (ws : Socket) (p : Payload)
    (hna : ¬ p.ptype = some "auth") (hnm : ¬ p.ptype = some "message") :
    handleFrame msgs reg cur ws (Frame.parsed p) = ⟨msgs, reg, cur, [], false⟩ := by
  unfold handleFrame
  dsimp only
  rw [if_neg hna, if_neg hnm]

/-- A well-formed message frame with a fresh id: the row is appended with
status "sent" and the receiver lookup decides the pushes. -/
theorem handleFrame_message_fresh (msgs : List Message) (reg : Registry)
    (cur : Option String) (ws : Socket) (p : Payload) (i s r c : String) (t : Int)
    (hp : p.ptype = some "message") (hI : p.id = some i) (hS : p.senderId = some s)
    (hR : p.receiverId = some r) (hC : p.content = some c) (hT : p.timestamp = some t)
    (hfresh : containsId msgs i = false) :
    handleFrame msgs reg cur ws (Frame.parsed p)
      = ⟨msgs ++ [⟨i, s, r, c, t, "sent"⟩], reg, cur, livePush reg r s c i t, false⟩ := by
  have hne : ¬ p.ptype = some "auth" := by rw [hp]; simp
  unfold handleFrame
  dsimp only
  rw [if_neg hne, if_pos hp, hI, hS, hR, hC, hT]
  simp [hfresh]

/-- A message frame whose id is already stored: the insert throws a
constraint error before the table is modified and before the receiver
lookup, the catch logs, nothing is sent.  (A frame that in addition is
missing some other field throws a bind error instead, with the same
observable outcome.) -/
theorem handleFrame_message_dup (msgs : List Message) (reg : Registry)
    (cur : Option String) (ws : Socket) (p : Payload) (i : String)
    (hp : p.ptype = some "message") (hI : p.id = some i)
    (hdup : containsId msgs i = true) :
    handleFrame msgs reg cur ws (Frame.parsed p) = ⟨msgs, reg, cur, [], true⟩ := by
  have hne : ¬ p.ptype = some "auth" := by rw [hp]; simp
  unfold handleFrame
  dsimp only
  rw [if_neg hne, if_pos hp, hI]
  rcases hS : p.senderId with _ | s <;> rcases hR : p.receiverId with _ | r <;>
    rcases hC : p.content with _ | c <;> rcases hT : p.timestamp with _ | t <;>
    simp [hdup]

/-- A message frame with a missing required field: binding `undefined`
throws before the table is modified, the catch logs, nothing is sent. -/
theorem handleFrame_message_missing (msgs : List Message) (reg : Registry)
    (cur : Option String) (ws : Socket) (p : Payload)
    (hp : p.ptype = some "message")
    (hmiss : p.id = none ∨ p.senderId = none ∨ p.receiverId = none ∨
      p.content = none ∨ p.timestamp = none) :
    handleFrame msgs reg cur ws (Frame.parsed p) = ⟨msgs, reg, cur, [], true⟩ := by
  have hne : ¬ p.ptype = some "auth" := by rw [hp]; simp
  unfold handleFrame
  dsimp only
  rw [if_neg hne, if_pos hp]
  rcases hI : p.id with _ | i <;> rcases hS : p.senderId with _ | s <;>
    rcases hR : p.receiverId with _ | r <;> rcases hC : p.content with _ | c <;>
    rcases hT : p.timestamp with _ | t <;>
    simp_all

/-- The message branch never reads `currentUserId`: the stored rows and the
pushes are the same whatever the auth state of the inbound connection. -/
theorem handleFrame_message_cur_irrel (msgs : List Message) (reg : Registry)
    (cur cur2 : Option String) (ws : Socket) (p : Payload)
    (hp : p.ptype = some "message") :
    (handleFrame msgs reg cur ws (Frame.parsed p)).messages
      = (handleFrame msgs reg cur2 ws (Frame.parsed p)).messages ∧
    (handleFrame msgs reg cur ws (Frame.parsed p)).pushes
      = (handleFrame msgs reg cur2 ws (Frame.parsed p)).pushes := by
  rcases hI : p.id with _ | i
  · rw [handleFrame_message_missing msgs reg cur ws p hp (Or.inl hI),
      handleFrame_message_missing msgs reg cur2 ws p hp (Or.inl hI)]
    exact ⟨rfl, rfl⟩
  · rcases hS : p.senderId with _ | s
    · rw [handleFrame_message_missing msgs reg cur ws p hp (Or.inr (Or.inl hS)),
        handleFrame_message_missing msgs reg cur2 ws p hp (Or.inr (Or.inl hS))]
      exact ⟨rfl, rfl⟩
    · rcases hR : p.receiverId with _ | r
      · rw [handleFrame_message_missing msgs reg cur ws p hp
          (Or.inr (Or.inr (Or.inl hR))),
          handleFrame_message_missing msgs reg cur2 ws p hp
          (Or.inr (Or.inr (Or.inl hR)))]
        exact ⟨rfl, rfl⟩
      · rcases hC : p.content with _ | c
        · rw [handleFrame_message_missing msgs reg cur ws p hp
            (Or.inr (Or.inr (Or.inr (Or.inl hC)))),
            handleFrame_message_missing msgs reg cur2 ws p hp
            (Or.inr (Or.inr (Or.inr (Or.inl hC))))]
          exact ⟨rfl, rfl⟩
        · rcases hT : p.timestamp with _ | t
          · rw [handleFrame_message_missing msgs reg cur ws p hp
              (Or.inr (Or.inr (Or.inr (Or.inr hT)))),
              handleFrame_message_missing msgs reg cur2 ws p hp
              (Or.inr (Or.inr (Or.inr (Or.inr hT))))]
            exact ⟨rfl, rfl⟩
          · by_cases hdup : containsId msgs i = true
            · rw [handleFrame_message_dup msgs reg cur ws p i hp hI hdup,
                handleFrame_message_dup msgs reg cur2 ws p i hp hI hdup]
              exact ⟨rfl, rfl⟩
            · have hfresh : containsId msgs i = false := by
                simpa using hdup
              rw [handleFrame_message_fresh msgs reg cur ws p i s r c t
                  hp hI hS hR hC hT hfresh,
                handleFrame_message_fresh msgs reg cur2 ws p i s r c t
                  hp hI hS hR hC hT hfresh]
              exact ⟨rfl, rfl⟩

/-- If a row with id `i` is absent, the filter by id is empty. -/
theorem countId_eq_zero (msgs : List Message) (i : String)
    (h : containsId msgs i = false) : countId msgs i = 0 := by
  unfold countId
  unfold containsId at h
  simp only [List.any_eq_false, decide_eq_true_eq] at h
  rw [List.length_eq_zero]
  rw [List.filter_eq_nil_iff]
  intro m hm
  simpa using h m hm

/-- Appending a row with id `i` makes `i` present. -/
theorem containsId_append (msgs : List Message) (m : Message) :
    containsId (msgs ++ [m]) m.id = true := by
  unfold containsId
  simp

/-- Every outbound frame `livePush` produces carries the payload fields
verbatim. -/
theorem livePush_snd (reg : Registry) (r s c i : String) (t : Int) :
    ∀ pr ∈ livePush reg r s c i t, pr.2 = (⟨s, r, c, i, t⟩ : OutFrame) := by
  intro pr hpr
  unfold livePush at hpr
  rcases hg : regGet reg (some r) with _ | sock <;> rw [hg] at hpr <;>
    dsimp only at hpr
  · simp at hpr
  · by_cases ho : sock.readyState = wsOPEN
    · rw [if_pos ho] at hpr
      simp only [List.mem_singleton] at hpr
      rw [hpr]
    · rw [if_neg ho] at hpr
      simp at hpr

/-- With the receiver absent from the registry there is no push. -/
theorem livePush_offline (reg : Registry) (r s c i : String) (t : Int)
    (h : regGet reg (some r) = none) : livePush reg r s c i t = [] := by
  unfold livePush
  rw [h]

/-! ### Claim theorems -/

/-- Claim C1, counterexample: with two distinct handles registered in turn
for user "u" (so lookup returns the second), running the close handler of
the FIRST connection (whose `currentUserId` is "u") does not leave the
second handle in place: `userSockets.delete(currentUserId)` at line 150 is
unguarded, so the claimed no-op actually evicts the live entry and lookup
no longer returns the second handle. -/
theorem close_evicts_new_handle_cex :
    regGet (regSet (regSet [] (some "u") ⟨1, wsOPEN⟩) (some "u") ⟨2, wsOPEN⟩)
        (some "u") = some ⟨2, wsOPEN⟩ ∧
    ¬ regGet (handleClose
        (regSet (regSet [] (some "u") ⟨1, wsOPEN⟩) (some "u") ⟨2, wsOPEN⟩)
        (some "u")) (some "u") = some ⟨2, wsOPEN⟩ := by
  decide

/-- Claim C1, amended: after register(u, h1) then register(u, h2), lookup(u)
returns h2; but the close handler run by the first connection deletes the
mapping unconditionally (the delete is not guarded by handle identity), so
lookup(u) afterwards returns none, not h2. -/
theorem register_overwrite_close_deletes (reg : Registry) (u : String)
    (h1 h2 : Socket) (hu : ¬ u = "") :
    regGet (regSet (regSet reg (some u) h1) (some u) h2) (some u) = some h2 ∧
    regGet (handleClose (regSet (regSet reg (some u) h1) (some u) h2) (some u))
        (some u) = none := by
  refine ⟨regGet_regSet _ _ _, ?_⟩
  simp [handleClose, hu, regGet_regDelete]

/-- Witness for C1's amended theorem at a concrete input. -/
theorem register_overwrite_close_deletes_witness :
    regGet (regSet (regSet [] (some "u") ⟨1, wsOPEN⟩) (some "u") ⟨2, wsOPEN⟩)
        (some "u") = some ⟨2, wsOPEN⟩ ∧
    regGet (handleClose
        (regSet (regSet [] (some "u") ⟨1, wsOPEN⟩) (some "u") ⟨2, wsOPEN⟩)
        (some "u")) (some "u") = none :=
  register_overwrite_close_deletes [] "u" ⟨1, wsOPEN⟩ ⟨2, wsOPEN⟩ (by decide)

/-- Claim C8: the history query is symmetric in its two user-id parameters:
the SQL WHERE clause is the disjunction of the two orientations, so
swapping the parameters filters the same rows and sorts them identically. -/
theorem history_symmetric (msgs : List Message) (a b : String) :
    historyQuery msgs a b = historyQuery msgs b a := by
  unfold historyQuery
  have h : msgs.filter (pairMatch a b) = msgs.filter (pairMatch b a) :=
    List.filter_congr (fun m _ => by unfold pairMatch; exact Bool.or_comm _ _)
  rw [h]

/-- The timestamp comparison is transitive. -/
theorem tsLe_trans (a b c : Message) (h1 : tsLe a b = true) (h2 : tsLe b c = true) :
    tsLe a c = true := by
  unfold tsLe at *
  simp only [decide_eq_true_eq] at *
  omega

/-- The timestamp comparison is total. -/
theorem tsLe_total (a b : Message) : (tsLe a b || tsLe b a) = true := by
  unfold tsLe
  simp only [Bool.or_eq_true, decide_eq_true_eq]
  omega

/-- Claim C3: the history query returns the stored conversation rows in
non-decreasing timestamp order, as a permutation of the rows matching the
pair in insertion order; two rows with equal timestamps keep their relative
insertion order (the sort is stable). -/
theorem history_ordering (msgs : List Message) (a b : String) :
    List.Pairwise (fun m1 m2 => m1.timestamp ≤ m2.timestamp) (historyQuery msgs a b) ∧
    (historyQuery msgs a b).Perm (msgs.filter (pairMatch a b)) ∧
    ∀ x y : Message, x.timestamp = y.timestamp →
      List.Sublist [x, y] (msgs.filter (pairMatch a b)) →
      List.Sublist [x, y] (historyQuery msgs a b) := by
  unfold historyQuery
  refine ⟨?_, List.mergeSort_perm _ _, ?_⟩
  · have h := List.sorted_mergeSort tsLe_trans tsLe_total (msgs.filter (pairMatch a b))
    exact h.imp (fun hab => by simpa [tsLe] using hab)
  · intro x y hxy hsub
    exact List.pair_sublist_mergeSort tsLe_trans tsLe_total
      (by simp [tsLe, hxy]) hsub

/-- Claim C2: a first well-formed send with a fresh id stores exactly one
row with that id, and a second send with the same id is a no-op: the table
is not modified, no frame is pushed to anyone, the handler returns normally
(the constraint error is caught inside; only the server log records it). -/
theorem handleSend_idempotent (msgs : List Message) (reg reg2 : Registry)
    (cur cur2 : Option String) (ws ws2 : Socket) (p q : Payload)
    (i s r c : String) (t : Int)
    (hp : p.ptype = some "message") (hI : p.id = some i) (hS : p.senderId = some s)
    (hR : p.receiverId = some r) (hC : p.content = some c) (hT : p.timestamp = some t)
    (hfresh : containsId msgs i = false)
    (hq : q.ptype = some "message") (hqI : q.id = some i) :
    countId (handleFrame msgs reg cur ws (Frame.parsed p)).messages i = 1 ∧
    handleFrame (handleFrame msgs reg cur ws (Frame.parsed p)).messages reg2 cur2 ws2
        (Frame.parsed q)
      = ⟨(handleFrame msgs reg cur ws (Frame.parsed p)).messages, reg2, cur2, [], true⟩ := by
  rw [handleFrame_message_fresh msgs reg cur ws p i s r c t hp hI hS hR hC hT hfresh]
  dsimp only
  have hdup : containsId (msgs ++ [⟨i, s, r, c, t, "sent"⟩]) i = true := by
    simpa using containsId_append msgs ⟨i, s, r, c, t, "sent"⟩
  constructor
  · have h0 : countId msgs i = 0 := countId_eq_zero msgs i hfresh
    unfold countId at h0 ⊢
    rw [List.filter_append, List.length_append, h0]
    simp
  · exact handleFrame_message_dup _ reg2 cur2 ws2 q i hq hqI hdup

/-- Witness for C2 at a concrete input. -/
theorem handleSend_idempotent_witness :
    countId (handleFrame [] [] (some "a1") ⟨1, wsOPEN⟩ (Frame.parsed
        ⟨some "message", none, some "m1", some "a1", some "b1", some "hi",
          some 1000⟩)).messages "m1" = 1 ∧
    handleFrame (handleFrame [] [] (some "a1") ⟨1, wsOPEN⟩ (Frame.parsed
        ⟨some "message", none, some "m1", some "a1", some "b1", some "hi",
          some 1000⟩)).messages [] (some "a1") ⟨1, wsOPEN⟩ (Frame.parsed
        ⟨some "message", none, some "m1", some "a1", some "b1", some "hi",
          some 1000⟩)
      = ⟨(handleFrame [] [] (some "a1") ⟨1, wsOPEN⟩ (Frame.parsed
          ⟨some "message", none, some "m1", some "a1", some "b1", some "hi",
            some 1000⟩)).messages, [], some "a1", [], true⟩ :=
  handleSend_idempotent [] [] [] (some "a1") (some "a1") ⟨1, wsOPEN⟩ ⟨1, wsOPEN⟩
    _ _ "m1" "a1" "b1" "hi" 1000 rfl rfl rfl rfl rfl rfl rfl rfl rfl

/-- Claim C4: with the receiver absent from the registry at send time, the
message is still appended to the table with status "sent", nothing is
pushed, and the row is retrievable by the history query for the pair. -/
theorem offline_send_durable (msgs : List Message) (reg : Registry)
    (cur : Option String) (ws : Socket) (p : Payload) (i s r c : String) (t : Int)
    (hp : p.ptype = some "message") (hI : p.id = some i) (hS : p.senderId = some s)
    (hR : p.receiverId = some r) (hC : p.content = some c) (hT : p.timestamp = some t)
    (hfresh : containsId msgs i = false)
    (hoff : regGet reg (some r) = none) :
    (handleFrame msgs reg cur ws (Frame.parsed p)).messages
        = msgs ++ [⟨i, s, r, c, t, "sent"⟩] ∧
    (handleFrame msgs reg cur ws (Frame.parsed p)).pushes = [] ∧
    (⟨i, s, r, c, t, "sent"⟩ : Message) ∈
      historyQuery (handleFrame msgs reg cur ws (Frame.parsed p)).messages s r ∧
    (⟨i, s, r, c, t, "sent"⟩ : Message).status = "sent" := by
  rw [handleFrame_message_fresh msgs reg cur ws p i s r c t hp hI hS hR hC hT hfresh]
  refine ⟨rfl, livePush_offline reg r s c i t hoff, ?_, rfl⟩
  unfold historyQuery
  rw [List.mem_mergeSort, List.mem_filter]
  refine ⟨List.mem_append_right _ (List.mem_singleton_self _), ?_⟩
  unfold pairMatch
  simp

/-- Witness for C4 at a concrete input. -/
theorem offline_send_durable_witness :
    (handleFrame [] [] (some "a1") ⟨1, wsOPEN⟩ (Frame.parsed
        ⟨some "message", none, some "m1", some "a1", some "b1", some "hi",
          some 1000⟩)).messages
      = [] ++ [⟨"m1", "a1", "b1", "hi", 1000, "sent"⟩] ∧
    (handleFrame [] [] (some "a1") ⟨1, wsOPEN⟩ (Frame.parsed
        ⟨some "message", none, some "m1", some "a1", some "b1", some "hi",
          some 1000⟩)).pushes = [] ∧
    (⟨"m1", "a1", "b1", "hi", 1000, "sent"⟩ : Message) ∈
      historyQuery (handleFrame [] [] (some "a1") ⟨1, wsOPEN⟩ (Frame.parsed
        ⟨some "message", none, some "m1", some "a1", some "b1", some "hi",
          some 1000⟩)).messages "a1" "b1" ∧
    (⟨"m1", "a1", "b1", "hi", 1000, "sent"⟩ : Message).status = "sent" :=
  offline_send_durable [] [] (some "a1") ⟨1, wsOPEN⟩ _ "m1" "a1" "b1" "hi" 1000
    rfl rfl rfl rfl rfl rfl rfl rfl

/-- Claim C5, counterexample: a message frame missing its `content` field
arrives from a sender whose own live socket is registered.  The insert
fails before persistence and the store is unchanged, as the claim says —
but no ValidationError (indeed no frame at all) is reported back to the
sending connection: the catch only logs server-side, so the reporting part
of the claim is false. -/
theorem malformed_not_reported_cex :
    handleFrame [] [(some "a1", ⟨1, wsOPEN⟩)] (some "a1") ⟨1, wsOPEN⟩
        (Frame.parsed ⟨some "message", none, some "m1", some "a1", some "b1",
          none, some 1000⟩)
      = ⟨[], [(some "a1", ⟨1, wsOPEN⟩)], some "a1", [], true⟩ := by
  decide

/-- Claim C5, amended: a message frame with a missing required field fails
before persistence — the table, the registry and the auth state are
unchanged and no frame is delivered to any connection (the error is caught
and logged server-side only, not reported to the sender). -/
theorem malformed_send_no_effect (msgs : List Message) (reg : Registry)
    (cur : Option String) (ws : Socket) (p : Payload)
    (hp : p.ptype = some "message")
    (hmiss : p.id = none ∨ p.senderId = none ∨ p.receiverId = none ∨
      p.content = none ∨ p.timestamp = none) :
    handleFrame msgs reg cur ws (Frame.parsed p) = ⟨msgs, reg, cur, [], true⟩ :=
  handleFrame_message_missing msgs reg cur ws p hp hmiss

/-- Witness for the amended C5 at a concrete input. -/
theorem malformed_send_no_effect_witness :
    handleFrame [] [] none ⟨1, wsOPEN⟩ (Frame.parsed
        ⟨some "message", none, some "m1", some "a1", some "b1", none, some 1000⟩)
      = ⟨[], [], none, [], true⟩ :=
  malformed_send_no_effect [] [] none ⟨1, wsOPEN⟩ _ rfl
    (Or.inr (Or.inr (Or.inr (Or.inl rfl))))

/-- Claim C6, counterexample: on a connection still in the Connecting state
(`currentUserId` is null, no auth frame accepted yet), an inbound
message-typed frame is NOT ignored: the handler persists it, so the
message store changes. -/
theorem preauth_message_processed_cex :
    (handleFrame [] [] none ⟨1, wsOPEN⟩ (Frame.parsed
        ⟨some "message", none, some "m1", some "a1", some "b1", some "hi",
          some 1000⟩)).messages
      = [⟨"m1", "a1", "b1", "hi", 1000, "sent"⟩] := by
  decide

/-- Claim C6, amended: before auth, a frame whose type is neither auth nor
message is ignored (no store, registry, or auth-state effect and nothing
sent); a message-typed frame, however, is processed exactly as on an
authenticated connection — the stored rows and pushes it produces do not
depend on the auth state. -/
theorem preauth_dispatch (msgs : List Message) (reg : Registry) (ws : Socket) :
    (∀ p : Payload, ¬ p.ptype = some "auth" → ¬ p.ptype = some "message" →
      handleFrame msgs reg none ws (Frame.parsed p) = ⟨msgs, reg, none, [], false⟩) ∧
    (∀ (p : Payload) (cur : Option String), p.ptype = some "message" →
      (handleFrame msgs reg none ws (Frame.parsed p)).messages
        = (handleFrame msgs reg cur ws (Frame.parsed p)).messages ∧
      (handleFrame msgs reg none ws (Frame.parsed p)).pushes
        = (handleFrame msgs reg cur ws (Frame.parsed p)).pushes) :=
  ⟨fun p h1 h2 => handleFrame_other msgs reg none ws p h1 h2,
   fun p cur hp => handleFrame_message_cur_irrel msgs reg none cur ws p hp⟩

/-- Claim C7: if every stored row has status "sent", then after any frame
is handled every stored row still has status "sent": the only insert uses
the literal status "sent" and no operation updates a stored row. -/
theorem status_always_sent (msgs : List Message) (reg : Registry)
    (cur : Option String) (ws : Socket) (f : Frame) (h : allSent msgs) :
    allSent (handleFrame msgs reg cur ws f).messages := by
  cases f with
  | malformed => exact h
  | parsed p =>
    by_cases hauth : p.ptype = some "auth"
    · rw [handleFrame_auth msgs reg cur ws p hauth]
      exact h
    · by_cases hmsg : p.ptype = some "message"
      · rcases hI : p.id with _ | i
        · rw [handleFrame_message_missing msgs reg cur ws p hmsg (Or.inl hI)]
          exact h
        · rcases hS : p.senderId with _ | s
          · rw [handleFrame_message_missing msgs reg cur ws p hmsg
              (Or.inr (Or.inl hS))]
            exact h
          · rcases hR : p.receiverId with _ | r
            · rw [handleFrame_message_missing msgs reg cur ws p hmsg
                (Or.inr (Or.inr (Or.inl hR)))]
              exact h
            · rcases hC : p.content with _ | c
              · rw [handleFrame_message_missing msgs reg cur ws p hmsg
                  (Or.inr (Or.inr (Or.inr (Or.inl hC))))]
                exact h
              · rcases hT : p.timestamp with _ | t
                · rw [handleFrame_message_missing msgs reg cur ws p hmsg
                    (Or.inr (Or.inr (Or.inr (Or.inr hT))))]
                  exact h
                · by_cases hdup : containsId msgs i = true
                  · rw [handleFrame_message_dup msgs reg cur ws p i hmsg hI hdup]
                    exact h
                  · rw [handleFrame_message_fresh msgs reg cur ws p i s r c t
                      hmsg hI hS hR hC hT (by simpa using hdup)]
                    intro m hm
                    simp only [List.mem_append, List.mem_singleton] at hm
                    rcases hm with hm | rfl
                    · exact h m hm
                    · rfl
      · rw [handleFrame_other msgs reg cur ws p hauth hmsg]
        exact h

/-- Witness for C7 at a concrete input. -/
theorem status_always_sent_witness :
    allSent (handleFrame [⟨"m0", "a1", "b1", "prev", 5, "sent"⟩] [] none
      ⟨1, wsOPEN⟩ (Frame.parsed ⟨some "message", none, some "m1", some "a1",
        some "b1", some "hi", some 1000⟩)).messages :=
  status_always_sent [⟨"m0", "a1", "b1", "prev", 5, "sent"⟩] [] none
    ⟨1, wsOPEN⟩ _ (by
      intro m hm
      simp only [List.mem_singleton] at hm
      subst hm
      rfl)

/-- Claim C9: a message frame whose id is already stored changes nothing
and pushes nothing — the failed insert aborts the handler before the
registry lookup, even when the recipient has a live open socket in the
registry. -/
theorem duplicate_send_suppressed (msgs : List Message) (reg : Registry)
    (cur : Option String) (ws : Socket) (p : Payload) (i : String)
    (hp : p.ptype = some "message") (hI : p.id = some i)
    (hdup : containsId msgs i = true) :
    handleFrame msgs reg cur ws (Frame.parsed p) = ⟨msgs, reg, cur, [], true⟩ :=
  handleFrame_message_dup msgs reg cur ws p i hp hI hdup

/-- Witness for C9: the receiver "b1" has a live open socket in the
registry, yet re-sending id "m1" pushes nothing and stores nothing. -/
theorem duplicate_send_suppressed_witness :
    handleFrame [⟨"m1", "a1", "b1", "hi", 1000, "sent"⟩]
        [(some "b1", ⟨2, wsOPEN⟩)] (some "a1") ⟨1, wsOPEN⟩
        (Frame.parsed ⟨some "message", none, some "m1", some "a1", some "b1",
          some "hi again", some 2000⟩)
      = ⟨[⟨"m1", "a1", "b1", "hi", 1000, "sent"⟩],
          [(some "b1", ⟨2, wsOPEN⟩)], some "a1", [], true⟩ :=
  duplicate_send_suppressed [⟨"m1", "a1", "b1", "hi", 1000, "sent"⟩]
    [(some "b1", ⟨2, wsOPEN⟩)] (some "a1") ⟨1, wsOPEN⟩ _ "m1" rfl rfl (by decide)

/-- Claim C10: the handler never compares the payload senderId with the
authenticated id of the connection: the row is stored with the payload
fields verbatim, every pushed frame carries them verbatim, and the stored
rows and pushes are identical whatever the auth state of the sending
connection is. -/
theorem sender_identity_unchecked (msgs : List Message) (reg : Registry)
    (cur cur2 : Option String) (ws : Socket) (p : Payload)
    (i s r c : String) (t : Int)
    (hp : p.ptype = some "message") (hI : p.id = some i) (hS : p.senderId = some s)
    (hR : p.receiverId = some r) (hC : p.content = some c) (hT : p.timestamp = some t)
    (hfresh : containsId msgs i = false) :
    (handleFrame msgs reg cur ws (Frame.parsed p)).messages
        = msgs ++ [⟨i, s, r, c, t, "sent"⟩] ∧
    (∀ pr ∈ (handleFrame msgs reg cur ws (Frame.parsed p)).pushes,
        pr.2 = (⟨s, r, c, i, t⟩ : OutFrame)) ∧
    (handleFrame msgs reg cur ws (Frame.parsed p)).messages
        = (handleFrame msgs reg cur2 ws (Frame.parsed p)).messages ∧
    (handleFrame msgs reg cur ws (Frame.parsed p)).pushes
        = (handleFrame msgs reg cur2 ws (Frame.parsed p)).pushes := by
  refine ⟨?_, ?_, (handleFrame_message_cur_irrel msgs reg cur cur2 ws p hp).1,
    (handleFrame_message_cur_irrel msgs reg cur cur2 ws p hp).2⟩
  · rw [handleFrame_message_fresh msgs reg cur ws p i s r c t hp hI hS hR hC hT hfresh]
  · rw [handleFrame_message_fresh msgs reg cur ws p i s r c t hp hI hS hR hC hT hfresh]
    exact livePush_snd reg r s c i t

/-- Witness for C10: the connection authenticated as "a1" sends a frame
claiming senderId "mallory"; it is stored and forwarded verbatim. -/
theorem sender_identity_unchecked_witness :
    (handleFrame [] [(some "b1", ⟨2, wsOPEN⟩)] (some "a1") ⟨1, wsOPEN⟩
        (Frame.parsed ⟨some "message", none, some "m1", some "mallory",
          some "b1", some "hi", some 1000⟩)).messages
        = [] ++ [⟨"m1", "mallory", "b1", "hi", 1000, "sent"⟩] ∧
    (∀ pr ∈ (handleFrame [] [(some "b1", ⟨2, wsOPEN⟩)] (some "a1") ⟨1, wsOPEN⟩
        (Frame.parsed ⟨some "message", none, some "m1", some "mallory",
          some "b1", some "hi", some 1000⟩)).pushes,
        pr.2 = (⟨"mallory", "b1", "hi", "m1", 1000⟩ : OutFrame)) ∧
    (handleFrame [] [(some "b1", ⟨2, wsOPEN⟩)] (some "a1") ⟨1, wsOPEN⟩
        (Frame.parsed ⟨some "message", none, some "m1", some "mallory",
          some "b1", some "hi", some 1000⟩)).messages
        = (handleFrame [] [(some "b1", ⟨2, wsOPEN⟩)] none ⟨1, wsOPEN⟩
        (Frame.parsed ⟨some "message", none, some "m1", some "mallory",
          some "b1", some "hi", some 1000⟩)).messages ∧
    (handleFrame [] [(some "b1", ⟨2, wsOPEN⟩)] (some "a1") ⟨1, wsOPEN⟩
        (Frame.parsed ⟨some "message", none, some "m1", some "mallory",
          some "b1", some "hi", some 1000⟩)).pushes
        = (handleFrame [] [(some "b1", ⟨2, wsOPEN⟩)] none ⟨1, wsOPEN⟩
        (Frame.parsed ⟨some "message", none, some "m1", some "mallory",
          some "b1", some "hi", some 1000⟩)).pushes :=
  sender_identity_unchecked [] [(some "b1", ⟨2, wsOPEN⟩)] (some "a1") none
    ⟨1, wsOPEN⟩ _ "m1" "mallory" "b1" "hi" 1000 rfl rfl rfl rfl rfl rfl rfl

end Unsiming
